import Mathlib

/-!
Shallow embedding of `cmd/sblookup/main.go` (command-line Safe Browsing
URL lookup tool).

The program reads one URL per line from stdin, queries the collaborator
(`sb.LookupURLs([]string{url})`) once per line, prints a Safe/Unsafe
verdict to stdout, diagnostics to stderr, and exits with an accumulated
code.  The collaborator is modelled as an oracle assigning to the i-th
call a response consisting of a list of per-URL threat-match lists
together with an optional error, which is exactly the shape of the Go
return value `(threats [][]URLThreat, err error)`.
-/

namespace Sblookup

/-- A threat match returned by the collaborator.  The core of the program
never inspects its fields; only its rendered form (Go `%v` formatting)
is observable, so the model carries just that rendering. -/
structure URLThreat where
  rendered : String
deriving DecidableEq, Repr

/-- Go `fmt` rendering of a slice of threat matches: elements separated
by single spaces and enclosed in square brackets. -/
def renderThreatList (ts : List URLThreat) : String :=
  "[" ++ String.intercalate " " (ts.map URLThreat.rendered) ++ "]"

/-- One collaborator response: the returned batch of per-URL match lists
(the program always queries a single-element batch and reads index 0)
and the returned error value (`none` = nil error). -/
structure LookupResp where
  threats : List (List URLThreat)
  err : Option String
deriving DecidableEq, Repr

/-- The input stream as the scanner delivers it: the successfully read
lines (terminators stripped), and `scanner.Err()` at termination
(`none` = clean end-of-stream). -/
structure InputStream where
  lines : List String
  readErr : Option String
deriving DecidableEq, Repr

/-- Result of one loop iteration that completed without a panic:
the updated `code` variable and the stdout/stderr lines it printed. -/
structure StepOut where
  code : Nat
  stdout : List String
  stderr : List String
deriving DecidableEq, Repr

/-- Overall observable behaviour of the process: either `os.Exit(code)`
with the accumulated stdout/stderr traces, or a runtime panic (indexing
`threats[0]` of an empty slice) with the traces printed up to it. -/
inductive RunResult where
  | exited (code : Nat) (stdout stderr : List String)
  | panicked (stdout stderr : List String)
deriving DecidableEq, Repr

/-- Stderr output of the `if err != nil` branch (main.go line 87):
`fmt.Fprintln(os.Stderr, "Lookup error:", err)`. -/
def lookupStderrLines (resp : LookupResp) : List String :=
  match resp.err with
  | some e => ["Lookup error: " ++ e]
  | none => []

/-- The `code` update inside the `if err != nil` branch
(main.go lines 88-90): `if code != 0 { code = 128 }`. -/
def codeAfterLookup (code : Nat) (resp : LookupResp) : Nat :=
  match resp.err with
  | some _ => if code ≠ 0 then 128 else code
  | none => code

/-- The `code` update inside the unsafe-verdict branch
(main.go lines 96-98): `if code != 0 { code = 1 }`. -/
def codeAfterUnsafe (code : Nat) : Nat :=
  if code ≠ 0 then 1 else code

/-- The `code` update after a scanner error (main.go lines 103-105):
`if code != 0 { code = 128 }`. -/
def codeAfterReadErr (code : Nat) : Nat :=
  if code ≠ 0 then 128 else code

/-- The stdout verdict lines one input line produces
(main.go lines 92-95): none when `threats[0]` panics, otherwise exactly
one Safe or Unsafe line. -/
def verdictLines (url : String) (resp : LookupResp) : List String :=
  match resp.threats with
  | [] => []
  | t0 :: _ =>
    if t0.length = 0 then ["Safe URL: " ++ url]
    else ["Unsafe URL: " ++ renderThreatList t0]

/-- One iteration of the scan loop (main.go lines 84-99) for one url and
the collaborator response to it.  The error branch prints to stderr and
updates `code` but does not skip the verdict step; evaluating
`threats[0]` on an empty batch is a panic, carrying the stderr lines
already printed in this iteration. -/
def loopBody (code : Nat) (url : String) (resp : LookupResp) :
    Except (List String) StepOut :=
  match resp.threats with
  | [] => .error (lookupStderrLines resp)
  | t0 :: _ =>
    if t0.length = 0 then
      .ok ⟨codeAfterLookup code resp,
           ["Safe URL: " ++ url], lookupStderrLines resp⟩
    else
      .ok ⟨codeAfterUnsafe (codeAfterLookup code resp),
           ["Unsafe URL: " ++ renderThreatList t0], lookupStderrLines resp⟩

/-- The scan loop (main.go lines 83-100): iterates over the successfully
read lines in order, feeding each to `loopBody` with the i-th oracle
response; threading `code` and accumulating the stdout/stderr traces.
`.error` is a panic, carrying the traces printed before it. -/
def runLoop (oracle : Nat → LookupResp) :
    Nat → Nat → List String →
    Except (List String × List String) (Nat × List String × List String)
  | code, _, [] => .ok (code, [], [])
  | code, i, url :: rest =>
    match loopBody code url (oracle i) with
    | .error se => .error ([], se)
    | .ok s =>
      match runLoop oracle s.code (i + 1) rest with
      | .error p => .error (s.stdout ++ p.1, s.stderr ++ p.2)
      | .ok (c, so, se) => .ok (c, s.stdout ++ so, s.stderr ++ se)

/-- The whole program after flag parsing (main.go lines 67-107):
startup checks, the scan loop, the scanner-error epilogue, and
`os.Exit(code)`.  `initRes` is the result of `NewSafeBrowser`. -/
def sblookupMain (apiKey : String) (initRes : Except String Unit)
    (input : InputStream) (oracle : Nat → LookupResp) : RunResult :=
  if apiKey = "" then
    .exited 1 [] ["No -apikey specified"]
  else
    match initRes with
    | .error e =>
      .exited 1 [] ["Unable to initialize Safe Browsing client:  " ++ e]
    | .ok _ =>
      match runLoop oracle 0 0 input.lines with
      | .error p => .panicked p.1 p.2
      | .ok (c, so, se) =>
        match input.readErr with
        | none => .exited c so se
        | some e =>
          .exited (codeAfterReadErr c) so (se ++ ["Unable to read input: " ++ e])

/-- The stdout trace the loop is expected to produce for a list of lines
starting at oracle index `i`: the verdict lines of each input line, in
input order. -/
def expectedStdout (oracle : Nat → LookupResp) : Nat → List String → List String
  | _, [] => []
  | i, url :: rest => verdictLines url (oracle i) ++ expectedStdout oracle (i + 1) rest

/-! ### Helper lemmas -/

theorem codeAfterLookup_zero (resp : LookupResp) : codeAfterLookup 0 resp = 0 := by
  obtain ⟨t, e⟩ := resp
  cases e <;> simp [codeAfterLookup]

theorem codeAfterUnsafe_zero : codeAfterUnsafe 0 = 0 := rfl

theorem loopBody_code_zero (url : String) (resp : LookupResp) (s : StepOut)
    (h : loopBody 0 url resp = Except.ok s) : s.code = 0 := by
  obtain ⟨threats, e⟩ := resp
  cases threats with
  | nil => simp [loopBody] at h
  | cons t0 rest =>
    by_cases ht : t0.length = 0 <;>
      simp only [loopBody, ht, if_true, if_false, ite_true, ite_false,
        Except.ok.injEq] at h <;>
      simp [← h, codeAfterLookup_zero, codeAfterUnsafe_zero]

theorem loopBody_stdout_eq (code : Nat) (url : String) (resp : LookupResp) (s : StepOut)
    (h : loopBody code url resp = Except.ok s) : s.stdout = verdictLines url resp := by
  obtain ⟨threats, e⟩ := resp
  cases threats with
  | nil => simp [loopBody] at h
  | cons t0 rest =>
    by_cases ht : t0.length = 0 <;>
      simp only [loopBody, ht, if_true, if_false, ite_true, ite_false,
        Except.ok.injEq] at h <;>
      simp [← h, verdictLines, ht]

theorem loopBody_ok_of_nonempty (code : Nat) (url : String) (resp : LookupResp)
    (h : resp.threats ≠ []) : ∃ s, loopBody code url resp = Except.ok s := by
  obtain ⟨threats, e⟩ := resp
  cases threats with
  | nil => simp at h
  | cons t0 rest =>
    by_cases ht : t0.length = 0 <;> simp [loopBody, ht]

theorem runLoop_code_zero (oracle : Nat → LookupResp) :
    ∀ (lines : List String) (i c : Nat) (so se : List String),
      runLoop oracle 0 i lines = Except.ok (c, so, se) → c = 0 := by
  intro lines
  induction lines with
  | nil =>
    intro i c so se h
    simp only [runLoop, Except.ok.injEq, Prod.mk.injEq] at h
    exact h.1.symm
  | cons url rest ih =>
    intro i c so se h
    cases hb : loopBody 0 url (oracle i) with
    | error p => simp [runLoop, hb] at h
    | ok s =>
      simp only [runLoop, hb] at h
      rw [loopBody_code_zero url (oracle i) s hb] at h
      cases hr : runLoop oracle 0 (i + 1) rest with
      | error p => simp [hr] at h
      | ok q =>
        obtain ⟨c2, so2, se2⟩ := q
        simp only [hr, Except.ok.injEq, Prod.mk.injEq] at h
        rw [← h.1]
        exact ih (i + 1) c2 so2 se2 hr

theorem runLoop_stdout_eq (oracle : Nat → LookupResp) :
    ∀ (lines : List String) (i code c : Nat) (so se : List String),
      runLoop oracle code i lines = Except.ok (c, so, se) →
      so = expectedStdout oracle i lines := by
  intro lines
  induction lines with
  | nil =>
    intro i code c so se h
    simp only [runLoop, Except.ok.injEq, Prod.mk.injEq] at h
    simp [expectedStdout, ← h.2.1]
  | cons url rest ih =>
    intro i code c so se h
    cases hb : loopBody code url (oracle i) with
    | error p => simp [runLoop, hb] at h
    | ok s =>
      simp only [runLoop, hb] at h
      cases hr : runLoop oracle s.code (i + 1) rest with
      | error p => simp [hr] at h
      | ok q =>
        obtain ⟨c2, so2, se2⟩ := q
        simp only [hr, Except.ok.injEq, Prod.mk.injEq] at h
        rw [← h.2.1, expectedStdout, ← loopBody_stdout_eq code url (oracle i) s hb,
          ih (i + 1) s.code c2 so2 se2 hr]

theorem runLoop_ok_of_nonempty (oracle : Nat → LookupResp)
    (h : ∀ j, (oracle j).threats ≠ []) :
    ∀ (lines : List String) (i code : Nat),
      ∃ c so se, runLoop oracle code i lines = Except.ok (c, so, se) := by
  intro lines
  induction lines with
  | nil => intro i code; exact ⟨code, [], [], rfl⟩
  | cons url rest ih =>
    intro i code
    obtain ⟨s, hs⟩ := loopBody_ok_of_nonempty code url (oracle i) (h i)
    obtain ⟨c, so, se, hr⟩ := ih (i + 1) s.code
    refine ⟨c, s.stdout ++ so, s.stderr ++ se, ?_⟩
    simp only [runLoop, hs, hr]

theorem runLoop_allsafe (oracle : Nat → LookupResp)
    (hall : ∀ j, oracle j = ⟨[[]], none⟩) :
    ∀ (lines : List String) (i code : Nat),
      runLoop oracle code i lines =
        Except.ok (code, lines.map (fun u => "Safe URL: " ++ u), []) := by
  intro lines
  induction lines with
  | nil => intro i code; rfl
  | cons url rest ih =>
    intro i code
    have hb : loopBody code url (oracle i) =
        Except.ok ⟨code, ["Safe URL: " ++ url], []⟩ := by
      rw [hall i]; rfl
    simp only [runLoop, hb, ih (i + 1) code]
    simp

theorem verdictLines_length_le (url : String) (resp : LookupResp) :
    (verdictLines url resp).length ≤ 1 := by
  obtain ⟨threats, e⟩ := resp
  cases threats with
  | nil => simp [verdictLines]
  | cons t0 rest =>
    by_cases ht : t0.length = 0 <;> simp [verdictLines, ht]

/-! ### Claim theorems -/

/-- C1: for an unsafe URL (lookup succeeds with a non-empty match list) the
program does print exactly one stdout line rendering the full match list,
but the run does NOT exit with code at least 1: the update at lines 96-98 of
main.go is guarded by `code != 0`, so starting from 0 the code never changes
and a run whose only non-safe observation is an unsafe URL exits 0.  Shown
on the concrete run with one input line and one threat match. -/
theorem unsafe_url_printed_but_exit_zero :
    sblookupMain "k" (Except.ok ()) ⟨["http://bad1url.org"], none⟩
      (fun _ => ⟨[[⟨"m"⟩]], none⟩) =
    RunResult.exited 0 ["Unsafe URL: [m]"] [] := by decide

/-- C2: when the collaborator call errors the program does print one stderr
diagnostic, but it does NOT skip the verdict step (there is no `continue` at
line 91 of main.go), so a verdict line IS printed to stdout for that URL,
and the exit-code update is guarded by `code != 0`, so the run exits 0, not
128.  Shown on the concrete run with one input line whose lookup errors with
an empty match list. -/
theorem lookup_error_prints_verdict_and_exits_zero :
    sblookupMain "k" (Except.ok ()) ⟨["u"], none⟩
      (fun _ => ⟨[[]], some "boom"⟩) =
    RunResult.exited 0 ["Safe URL: u"] ["Lookup error: boom"] := by decide

/-- C3: the outcome aggregation of main.go is NOT the monotonic
most-severe-wins fold the claim describes: the unsafe-URL update lowers
state 128 (SomeLookupFailed) to 1, and from the real initial state 0 no
observation ever changes the code, so a run with a lookup failure followed
by an unsafe URL exits 0 instead of 128. -/
theorem aggregator_downgrades_and_never_escalates :
    codeAfterUnsafe 128 = 1 ∧
    sblookupMain "k" (Except.ok ()) ⟨["a", "b"], none⟩
      (fun i => if i = 0 then ⟨[[]], some "e"⟩ else ⟨[[⟨"m"⟩]], none⟩) =
    RunResult.exited 0 ["Safe URL: a", "Unsafe URL: [m]"] ["Lookup error: e"] :=
  ⟨rfl, by decide⟩

/-- C4 counterexample: a collaborator response that returns an error
together with an empty batch makes line 92 of main.go index `threats[0]`
out of range: the run panics instead of exiting with one of the documented
codes 0, 1, 128. -/
theorem empty_response_panics :
    sblookupMain "k" (Except.ok ()) ⟨["x"], none⟩
      (fun _ => ⟨[], some "boom"⟩) =
    RunResult.panicked [] ["Lookup error: boom"] := by decide

/-- C4 (amended): provided every collaborator response carries at least one
per-URL match list in its returned batch (as the real client does by
pre-allocating one list per queried URL), every run terminates through
`os.Exit` with one of the documented codes 0, 1 or 128, for every input
stream and every error pattern; in particular a lookup error does not crash
the program. -/
theorem all_failure_paths_exit (apiKey : String) (initRes : Except String Unit)
    (input : InputStream) (oracle : Nat → LookupResp)
    (h : ∀ j, (oracle j).threats ≠ []) :
    ∃ c so se, sblookupMain apiKey initRes input oracle = RunResult.exited c so se ∧
      (c = 0 ∨ c = 1 ∨ c = 128) := by
  by_cases hk : apiKey = ""
  · exact ⟨1, [], ["No -apikey specified"], by simp [sblookupMain, hk], Or.inr (Or.inl rfl)⟩
  · cases initRes with
    | error e =>
      exact ⟨1, [], ["Unable to initialize Safe Browsing client:  " ++ e],
        by simp [sblookupMain, hk], Or.inr (Or.inl rfl)⟩
    | ok u =>
      obtain ⟨c, so, se, hr⟩ := runLoop_ok_of_nonempty oracle h input.lines 0 0
      have hc : c = 0 := runLoop_code_zero oracle input.lines 0 c so se hr
      cases hre : input.readErr with
      | none =>
        refine ⟨c, so, se, ?_, Or.inl hc⟩
        simp [sblookupMain, hk, hr, hre]
      | some e =>
        refine ⟨codeAfterReadErr c, so, se ++ ["Unable to read input: " ++ e], ?_, ?_⟩
        · simp [sblookupMain, hk, hr, hre]
        · rw [hc]; exact Or.inl rfl

/-- C4 witness: the amended theorem applied to a concrete run in which one
lookup errors and the stream read also fails. -/
theorem all_failure_paths_exit_witness :
    ∃ c so se,
      sblookupMain "k" (Except.ok ()) ⟨["u"], some "io"⟩
        (fun _ => ⟨[[]], some "boom"⟩) = RunResult.exited c so se ∧
      (c = 0 ∨ c = 1 ∨ c = 128) :=
  all_failure_paths_exit "k" (Except.ok ()) ⟨["u"], some "io"⟩
    (fun _ => ⟨[[]], some "boom"⟩) (fun _ => List.cons_ne_nil [] [])

/-- C5: a failing read of the input stream does produce the stderr
diagnostic after the loop and is aggregated by exactly the same
`if code != 0 { code = 128 }` update as a lookup failure (lines 103-105 of
main.go), but because of that guard a run whose only failure is the read
error exits 0, not 128.  Shown on the concrete run with an empty line list
terminated by a read error. -/
theorem read_error_exits_zero :
    (∀ c : Nat, codeAfterReadErr c = codeAfterLookup c ⟨[], some "io"⟩) ∧
    sblookupMain "k" (Except.ok ()) ⟨[], some "io"⟩ (fun _ => ⟨[[]], none⟩) =
      RunResult.exited 0 [] ["Unable to read input: io"] :=
  ⟨fun _ => rfl, by decide⟩

/-- C6: a URL whose lookup succeeds with an empty match list yields exactly
the stdout line `Safe URL: <url>` and leaves the code variable unchanged
(first conjunct, at the loop-body level); consequently any run past startup
in which every lookup returns empty matches — including the run on an empty
input stream — prints one Safe line per input line and exits 0 (second
conjunct). -/
theorem safe_url_verdict_and_allsafe_exit :
    (∀ (code : Nat) (url : String) (rest : List (List URLThreat)),
        loopBody code url ⟨[] :: rest, none⟩ =
          Except.ok ⟨code, ["Safe URL: " ++ url], []⟩) ∧
    (∀ (k : String) (lines : List String) (oracle : Nat → LookupResp),
        k ≠ "" → (∀ j, oracle j = ⟨[[]], none⟩) →
        sblookupMain k (Except.ok ()) ⟨lines, none⟩ oracle =
          RunResult.exited 0 (lines.map (fun u => "Safe URL: " ++ u)) []) := by
  constructor
  · intro code url rest
    rfl
  · intro k lines oracle hk hall
    simp [sblookupMain, hk, runLoop_allsafe oracle hall lines 0 0]

/-- C6 witness: the all-safe run on the single line
`https://google.com`. -/
theorem safe_url_verdict_and_allsafe_exit_witness :
    sblookupMain "k" (Except.ok ()) ⟨["https://google.com"], none⟩
      (fun _ => ⟨[[]], none⟩) =
      RunResult.exited 0 ["Safe URL: https://google.com"] [] :=
  safe_url_verdict_and_allsafe_exit.2 "k" ["https://google.com"]
    (fun _ => ⟨[[]], none⟩) (by decide) (fun _ => rfl)

/-- C7: with an empty `-apikey` the process prints the diagnostic and exits
1 whatever the input and collaborator are (first conjunct); likewise when
the collaborator construction fails (second conjunct).  In both cases
nothing is printed to stdout and no lookup or input read influences the
result, which formalises that startup failures abort before any
processing. -/
theorem startup_failures_exit_one :
    (∀ (initRes : Except String Unit) (input : InputStream)
        (oracle : Nat → LookupResp),
        sblookupMain "" initRes input oracle =
          RunResult.exited 1 [] ["No -apikey specified"]) ∧
    (∀ (k e : String) (input : InputStream) (oracle : Nat → LookupResp),
        k ≠ "" →
        sblookupMain k (Except.error e) input oracle =
          RunResult.exited 1 []
            ["Unable to initialize Safe Browsing client:  " ++ e]) := by
  constructor
  · intro initRes input oracle
    rfl
  · intro k e input oracle hk
    simp [sblookupMain, hk]

/-- C7 witness: a failed collaborator construction with a non-empty key. -/
theorem startup_failures_exit_one_witness :
    sblookupMain "k" (Except.error "bad key") ⟨["u"], none⟩
      (fun _ => ⟨[[]], none⟩) =
      RunResult.exited 1 []
        ["Unable to initialize Safe Browsing client:  bad key"] :=
  startup_failures_exit_one.2 "k" "bad key" ⟨["u"], none⟩
    (fun _ => ⟨[[]], none⟩) (by decide)

/-- C8: per input line at most one stdout line is printed (first conjunct),
and for every run past startup that exits normally the stdout trace equals
the concatenation, in input order, of the verdict lines of each input line
(second conjunct) — so verdicts appear in input order, one-to-one with the
input lines that produce output. -/
theorem stdout_in_input_order :
    (∀ (url : String) (resp : LookupResp), (verdictLines url resp).length ≤ 1) ∧
    (∀ (k : String) (lines : List String) (re : Option String)
        (oracle : Nat → LookupResp) (c : Nat) (so se : List String),
        k ≠ "" →
        sblookupMain k (Except.ok ()) ⟨lines, re⟩ oracle =
          RunResult.exited c so se →
        so = expectedStdout oracle 0 lines) := by
  constructor
  · exact verdictLines_length_le
  · intro k lines re oracle c so se hk h
    simp [sblookupMain, hk] at h
    cases hr : runLoop oracle 0 0 lines with
    | error p => simp [hr] at h
    | ok q =>
      obtain ⟨c2, so2, se2⟩ := q
      cases re with
      | none =>
        simp only [hr, RunResult.exited.injEq] at h
        rw [← h.2.1]
        exact runLoop_stdout_eq oracle lines 0 0 c2 so2 se2 hr
      | some e =>
        simp only [hr, RunResult.exited.injEq] at h
        rw [← h.2.1]
        exact runLoop_stdout_eq oracle lines 0 0 c2 so2 se2 hr

/-- C8 witness: a two-line run, first safe and second unsafe, whose stdout
trace is the two verdicts in input order. -/
theorem stdout_in_input_order_witness :
    ["Safe URL: a", "Unsafe URL: [m]"] =
      expectedStdout
        (fun i => if i = 0 then ⟨[[]], none⟩ else ⟨[[⟨"m"⟩]], none⟩) 0
        ["a", "b"] :=
  stdout_in_input_order.2 "k" ["a", "b"] none
    (fun i => if i = 0 then ⟨[[]], none⟩ else ⟨[[⟨"m"⟩]], none⟩) 0
    ["Safe URL: a", "Unsafe URL: [m]"] [] (by decide) (by decide)

/-- C9: the `code` variable stays 0 at every point of the loop — every
iteration that completes maps code 0 back to code 0 (first conjunct) — and
every run past startup that reaches `os.Exit` exits with code 0, whatever
the collaborator answered and whether or not the stream read failed
(second conjunct): each of the three updates is guarded by `code != 0`. -/
theorem exit_code_never_leaves_zero :
    (∀ (url : String) (resp : LookupResp) (s : StepOut),
        loopBody 0 url resp = Except.ok s → s.code = 0) ∧
    (∀ (k : String) (lines : List String) (re : Option String)
        (oracle : Nat → LookupResp) (c : Nat) (so se : List String),
        k ≠ "" →
        sblookupMain k (Except.ok ()) ⟨lines, re⟩ oracle =
          RunResult.exited c so se →
        c = 0) := by
  constructor
  · exact loopBody_code_zero
  · intro k lines re oracle c so se hk h
    simp [sblookupMain, hk] at h
    cases hr : runLoop oracle 0 0 lines with
    | error p => simp [hr] at h
    | ok q =>
      obtain ⟨c2, so2, se2⟩ := q
      have hc2 : c2 = 0 := runLoop_code_zero oracle lines 0 c2 so2 se2 hr
      cases re with
      | none =>
        simp only [hr, RunResult.exited.injEq] at h
        rw [← h.1]
        exact hc2
      | some e =>
        simp only [hr, RunResult.exited.injEq] at h
        rw [← h.1, hc2]
        rfl

/-- C9 witness: a run with an erroring lookup still exits with code 0. -/
theorem exit_code_never_leaves_zero_witness :
    sblookupMain "k" (Except.ok ()) ⟨["w"], none⟩
      (fun _ => ⟨[[]], some "x"⟩) =
      RunResult.exited 0 ["Safe URL: w"] ["Lookup error: x"] ∧ (0 : Nat) = 0 :=
  ⟨by decide,
    exit_code_never_leaves_zero.2 "k" ["w"] none (fun _ => ⟨[[]], some "x"⟩)
      0 ["Safe URL: w"] ["Lookup error: x"] (by decide) (by decide)⟩

/-- C10: when the collaborator returns an error together with a non-empty
first match list, the iteration prints both the stderr diagnostic and the
stdout Unsafe verdict (first conjunct, at the loop-body level; the error
branch does not skip the verdict step), shown also on a whole concrete run
(second conjunct). -/
theorem lookup_error_does_not_skip_verdict :
    (∀ (code : Nat) (url e : String) (m : URLThreat) (ms : List URLThreat)
        (rest : List (List URLThreat)),
        loopBody code url ⟨(m :: ms) :: rest, some e⟩ =
          Except.ok
            ⟨codeAfterUnsafe (codeAfterLookup code ⟨(m :: ms) :: rest, some e⟩),
             ["Unsafe URL: " ++ renderThreatList (m :: ms)],
             ["Lookup error: " ++ e]⟩) ∧
    sblookupMain "k" (Except.ok ()) ⟨["u"], none⟩
      (fun _ => ⟨[[⟨"m"⟩]], some "boom"⟩) =
      RunResult.exited 0 ["Unsafe URL: [m]"] ["Lookup error: boom"] := by
  constructor
  · intro code url e m ms rest
    rfl
  · decide

end Sblookup
